import Mathlib

/-!
Verification development for the stateful detector evaluation core
(`src/sentry/workflow_engine/processors/detector.py`).

The Python module is shallowly embedded:
* Django model rows (`DetectorState`) and the redis cache become explicit data
  (lists of rows, an association list of string keys to integer values) threaded
  through the functions.
* Python dictionaries become association lists with last-write-wins insertion
  (`dictInsert`) and first-match lookup (`dictLookup`), which matches dict
  semantics because `dictInsert` replaces in place.
* Code that can raise (`counter_updates[gk]` on a missing key) returns `Option`,
  with `none` standing for the raised `KeyError`.
* `DetectorPriorityLevel` lives in a module that is not part of the sources;
  it is modelled from the spec as a totally ordered severity scale with `OK` as
  the minimum, i.e. `Nat` with `OK = 0`.
* `DataCondition.evaluate_value` is consumed by this module as an opaque
  capability (spec: an optional priority from a numeric value); it is modelled
  as a function field.
-/

set_option autoImplicit false

/-- Modelled from the spec: a group key is a string or the distinguished
"no group" value (`DetectorGroupKey = str | None` lives outside the sources). -/
abbrev DetectorGroupKey := Option String

/-- Modelled from the spec: `DetectorPriorityLevel` (defined outside the sources)
is an ordered severity scale, a total order with `OK` as the minimum; modelled as
`Nat` with `OK = 0`. -/
abbrev DetectorPriorityLevel := Nat

/-- Modelled from the spec: `OK` is the minimum, inactive baseline priority. -/
def DetectorPriorityLevel.OK : DetectorPriorityLevel := 0

/-- Python dict assignment `d[k] = v`: replace the value of an existing key in
place, otherwise append the new binding at the end (insertion order kept). -/
def dictInsert {α β : Type} [DecidableEq α] : List (α × β) → α → β → List (α × β)
  | [], k, v => [(k, v)]
  | (k', v') :: rest, k, v =>
    if k' = k then (k, v) :: rest else (k', v') :: dictInsert rest k v

/-- Python dict lookup `d[k]` / `d.get(k)` as an `Option`. -/
def dictLookup {α β : Type} [DecidableEq α] : List (α × β) → α → Option β
  | [], _ => none
  | (k', v') :: rest, k => if k' = k then some v' else dictLookup rest k

/-- Number of occurrences of a group key in a list of group keys. -/
def countKey (gk : DetectorGroupKey) : List DetectorGroupKey → Nat
  | [] => 0
  | k :: rest => (if k = gk then 1 else 0) + countKey gk rest

/-- The `Detector` model fields this module reads. -/
structure Detector where
  id : Nat
  workflow_condition_group_id : Option Nat

/-- The `DataConditionGroup` model row (only its id is read here). -/
structure DataConditionGroup where
  id : Nat
deriving DecidableEq

/-- A `DataCondition` row, consumed through its opaque capability
`evaluate_value : value -> priority | None` (spec: null means the condition
does not fire). -/
structure DataCondition where
  evaluate_value : Int → Option DetectorPriorityLevel

/-- The durable rows backing `DataConditionGroup.objects` /
`group.datacondition_set`: each group id maps to its ordered condition list. -/
structure DataConditionGroupTable where
  groups : List (Nat × List DataCondition)

/-- A data packet, represented by the two values the abstract accessors
`get_dedupe_value` and `get_group_key_values` extract from it. -/
structure DataPacket where
  dedupe_value : Int
  group_values : List (DetectorGroupKey × Int)

/-- The frozen dataclass `DetectorEvaluationResult`; the opaque `data` payload
(always the empty dict here) is modelled as an association list. -/
structure DetectorEvaluationResult where
  group_key : DetectorGroupKey
  is_active : Bool
  priority : DetectorPriorityLevel
  data : List (String × Int)
deriving DecidableEq

/-- A durable `DetectorState` row for this detector: one row per
(detector, group_key), with the active flag and the priority level. -/
structure DetectorState where
  detector_group_key : DetectorGroupKey
  active : Bool
  state : DetectorPriorityLevel
deriving DecidableEq

/-- The frozen dataclass `DetectorStateData`: the in-memory snapshot merged from
the durable row and the ephemeral cache entries. -/
structure DetectorStateData where
  group_key : DetectorGroupKey
  active : Bool
  status : DetectorPriorityLevel
  dedupe_value : Int
  counter_updates : List (String × Option Int)
deriving DecidableEq

/-- The external stores one detector touches: the redis cache (string key to
integer value) and this detector's `detectorstate_set` durable rows. -/
structure Env where
  redis : List (String × Int)
  detector_states : List DetectorState
deriving DecidableEq

/-- Redis `GET`. -/
def rget (r : List (String × Int)) (k : String) : Option Int := dictLookup r k

/-- Redis `SET`. -/
def rset (r : List (String × Int)) (k : String) (v : Int) : List (String × Int) :=
  dictInsert r k v

/-- Redis `DELETE`. -/
def rdel (r : List (String × Int)) (k : String) : List (String × Int) :=
  r.filter (fun e => decide (e.1 ≠ k))

/-- `REDIS_TTL = int(timedelta(days=7).total_seconds())`. -/
def REDIS_TTL : Nat := 604800

/-- `get_data_group_conditions_and_group`: fetch the condition group row and its
ordered conditions; the `DoesNotExist` branch is embedded as the not-found
fallback `(None, [])`. The `cache_func_for_models` decorator memoizes this
per process and is semantically transparent, so it is not modelled. -/
def get_data_group_conditions_and_group (db : DataConditionGroupTable)
    (data_condition_group_id : Nat) :
    Option DataConditionGroup × List DataCondition :=
  match dictLookup db.groups data_condition_group_id with
  | some conditions => (some { id := data_condition_group_id }, conditions)
  | none => (none, [])

/-- The mutable state of a `StatefulDetectorHandler` instance: the fields set by
`DetectorHandler.__init__` (detector, condition group, conditions), the abstract
`counter_names` property of the concrete subclass, and the three staged-update
maps set up by `StatefulDetectorHandler.__init__`. -/
structure StatefulDetectorHandler where
  detector : Detector
  counter_names : List String
  condition_group : Option DataConditionGroup
  conditions : List DataCondition
  dedupe_updates : List (DetectorGroupKey × Int)
  counter_updates : List (DetectorGroupKey × List (String × Option Int))
  state_updates : List (DetectorGroupKey × (Bool × DetectorPriorityLevel))

/-- `DetectorHandler.__init__` composed with `StatefulDetectorHandler.__init__`:
resolve the condition group and conditions when the detector has a group id
configured, else leave both empty; start with empty staged maps. -/
def StatefulDetectorHandler.init (db : DataConditionGroupTable)
    (detector : Detector) (counter_names : List String) : StatefulDetectorHandler :=
  match detector.workflow_condition_group_id with
  | some gid =>
    let results := get_data_group_conditions_and_group db gid
    { detector := detector, counter_names := counter_names,
      condition_group := results.1, conditions := results.2,
      dedupe_updates := [], counter_updates := [], state_updates := [] }
  | none =>
    { detector := detector, counter_names := counter_names,
      condition_group := none, conditions := [],
      dedupe_updates := [], counter_updates := [], state_updates := [] }

/-- `build_dedupe_value_key`: the f-string key, with `None` rendered as the
empty string. -/
def StatefulDetectorHandler.build_dedupe_value_key (h : StatefulDetectorHandler)
    (group_key : DetectorGroupKey) : String :=
  toString h.detector.id ++ ":" ++ group_key.getD "" ++ ":dedupe_value"

/-- `build_counter_value_key`: the f-string key, with `None` rendered as the
empty string. -/
def StatefulDetectorHandler.build_counter_value_key (h : StatefulDetectorHandler)
    (group_key : DetectorGroupKey) (counter_name : String) : String :=
  toString h.detector.id ++ ":" ++ group_key.getD "" ++ ":" ++ counter_name

/-- `bulk_get_detector_state`: filter this detector's rows with
`Q(detector_group_key__in=[non-null keys]) | Q(detector_group_key__isnull=True)`
(the latter only when `None` is among the requested keys), then build the dict
keyed by each row's group key. -/
def StatefulDetectorHandler.bulk_get_detector_state (env : Env)
    (group_keys : List DetectorGroupKey) :
    List (DetectorGroupKey × DetectorState) :=
  let matching := env.detector_states.filter (fun row =>
    match row.detector_group_key with
    | some s => (group_keys.filterMap id).contains s
    | none => group_keys.contains (none : DetectorGroupKey))
  matching.foldl (fun acc row => dictInsert acc row.detector_group_key row) []

/-- The `chunked` iterator from `sentry.utils.iterators`, by fuel recursion:
split a list into consecutive chunks of size `n` (only ever called with
`n ≥ 1` and fuel at least the list length). -/
def chunkedAux {α : Type} (n : Nat) : Nat → List α → List (List α)
  | 0, _ => []
  | _, [] => []
  | fuel + 1, l => if n = 0 then [] else l.take n :: chunkedAux n fuel (l.drop n)

/-- `chunked(vals, n)` fully consumed into a list of chunks. -/
def chunked {α : Type} (l : List α) (n : Nat) : List (List α) :=
  chunkedAux n l.length l

/-- `get_state_data`: bulk fetch durable rows, read the dedupe watermark per
group key from redis (absent parses as 0), read each declared counter per group
key from redis (absent stays `None`), then merge each group key into a
`DetectorStateData` with defaults for missing durable rows. The subscript
accesses `group_key_dedupe_values[gk]` and `counter_updates[gk]` are embedded as
`dictLookup` with `none` propagating the `KeyError`. -/
def StatefulDetectorHandler.get_state_data (h : StatefulDetectorHandler)
    (env : Env) (group_keys : List DetectorGroupKey) :
    Option (List (DetectorGroupKey × DetectorStateData)) :=
  let group_key_detectors := StatefulDetectorHandler.bulk_get_detector_state env group_keys
  let group_key_dedupe_values : List (DetectorGroupKey × Int) :=
    group_keys.foldl (fun acc gk =>
      dictInsert acc gk
        (match rget env.redis (h.build_dedupe_value_key gk) with
        | some dv => dv
        | none => 0)) []
  let counter_updates : List (DetectorGroupKey × List (String × Option Int)) :=
    if h.counter_names.isEmpty then []
    else
      let vals : List (Option Int) :=
        List.flatten (group_keys.map (fun gk =>
          h.counter_names.map (fun name =>
            rget env.redis (h.build_counter_value_key gk name))))
      (group_keys.zip (chunked vals h.counter_names.length)).foldl
        (fun acc gv => dictInsert acc gv.1 (h.counter_names.zip gv.2)) []
  group_keys.foldl (fun acc gk =>
    match acc with
    | none => none
    | some results =>
      match dictLookup group_key_dedupe_values gk, dictLookup counter_updates gk with
      | some dv, some cu =>
        let detector_state := dictLookup group_key_detectors gk
        some (dictInsert results gk
          { group_key := gk,
            active := match detector_state with
              | some ds => ds.active
              | none => false,
            status := match detector_state with
              | some ds => ds.state
              | none => DetectorPriorityLevel.OK,
            dedupe_value := dv,
            counter_updates := cu })
      | _, _ => none) (some [])

/-- `enqueue_dedupe_update`. -/
def StatefulDetectorHandler.enqueue_dedupe_update (h : StatefulDetectorHandler)
    (group_key : DetectorGroupKey) (dedupe_value : Int) : StatefulDetectorHandler :=
  { h with dedupe_updates := dictInsert h.dedupe_updates group_key dedupe_value }

/-- `enqueue_counter_update`. -/
def StatefulDetectorHandler.enqueue_counter_update (h : StatefulDetectorHandler)
    (group_key : DetectorGroupKey) (counter_updates : List (String × Option Int)) :
    StatefulDetectorHandler :=
  { h with counter_updates := dictInsert h.counter_updates group_key counter_updates }

/-- `enqueue_state_update`. -/
def StatefulDetectorHandler.enqueue_state_update (h : StatefulDetectorHandler)
    (group_key : DetectorGroupKey) (is_active : Bool)
    (priority : DetectorPriorityLevel) : StatefulDetectorHandler :=
  { h with state_updates := dictInsert h.state_updates group_key (is_active, priority) }

/-- The condition loop of `evaluate_group_key_value` (lines 231-241): fold the
conditions, taking the max of the priorities of the conditions that fire,
starting from `OK`. -/
def computeStatus (conditions : List DataCondition) (value : Int) :
    DetectorPriorityLevel :=
  conditions.foldl (fun status condition =>
    match condition.evaluate_value value with
    | some evaluation => max status evaluation
    | none => status) DetectorPriorityLevel.OK

/-- `evaluate_group_key_value`: dedupe guard, dedupe staging, missing condition
group guard, condition evaluation, counter staging, and state-change emission.
Returns the optional result together with the handler state after its staged-map
mutations. -/
def StatefulDetectorHandler.evaluate_group_key_value (h : StatefulDetectorHandler)
    (group_key : DetectorGroupKey) (value : Int) (state_data : DetectorStateData)
    (dedupe_value : Int) :
    Option DetectorEvaluationResult × StatefulDetectorHandler :=
  if dedupe_value ≤ state_data.dedupe_value then
    (none, h)
  else
    let h1 := h.enqueue_dedupe_update group_key dedupe_value
    match h1.condition_group with
    | none => (none, h1)
    | some _ =>
      let status := computeStatus h1.conditions value
      let is_active : Bool := decide (status ≠ DetectorPriorityLevel.OK)
      let h2 := h1.enqueue_counter_update group_key []
      if state_data.active ≠ is_active ∨ state_data.status ≠ status then
        (some { group_key := group_key, is_active := is_active,
                priority := status, data := [] },
         h2.enqueue_state_update group_key is_active status)
      else
        (none, h2)

/-- `get_dedupe_value`, an abstract accessor of the packet. -/
def StatefulDetectorHandler.get_dedupe_value (data_packet : DataPacket) : Int :=
  data_packet.dedupe_value

/-- `get_group_key_values`, an abstract accessor of the packet. -/
def StatefulDetectorHandler.get_group_key_values (data_packet : DataPacket) :
    List (DetectorGroupKey × Int) :=
  data_packet.group_values

/-- `StatefulDetectorHandler.evaluate`: extract the dedupe value and group
values, bulk fetch state, then run `evaluate_group_key_value` per group key,
collecting the non-`None` results in order. A `none` models an exception
escaping the call (`get_state_data` raising, or the unreachable missing
`all_state_data[group_key]`). -/
def StatefulDetectorHandler.evaluate (h : StatefulDetectorHandler) (env : Env)
    (data_packet : DataPacket) :
    Option (List DetectorEvaluationResult × StatefulDetectorHandler) :=
  let dedupe_value := StatefulDetectorHandler.get_dedupe_value data_packet
  let group_values := StatefulDetectorHandler.get_group_key_values data_packet
  match h.get_state_data env (group_values.map (fun gv => gv.1)) with
  | none => none
  | some all_state_data =>
    group_values.foldl (fun acc gv =>
      match acc with
      | none => none
      | some (results, hCur) =>
        match dictLookup all_state_data gv.1 with
        | none => none
        | some state_data =>
          let out := hCur.evaluate_group_key_value gv.1 gv.2 state_data dedupe_value
          some ((match out.1 with
                 | some result => results ++ [result]
                 | none => results), out.2)) (some ([], h))

/-- A sequence of `evaluate` calls on the same handler instance against a fixed
environment (no commit in between); `none` models an escaped exception. -/
def evalSeq (h : StatefulDetectorHandler) (env : Env) :
    List DataPacket → Option StatefulDetectorHandler
  | [] => some h
  | p :: rest =>
    match h.evaluate env p with
    | none => none
    | some (_, h1) => evalSeq h1 env rest

/-- One operation issued against one of the two stores during a commit, in
issue order; the store each operation belongs to is recoverable from the
constructor. -/
inductive StoreOp where
  | durableBulkCreate (rows : List DetectorState)
  | durableBulkUpdate (rows : List DetectorState)
  | redisSet (key : String) (value : Int) (ttl : Nat)
  | redisDelete (key : String)
deriving DecidableEq

/-- Whether a commit operation targets the durable relational store. -/
def StoreOp.isDurable : StoreOp → Bool
  | .durableBulkCreate _ => true
  | .durableBulkUpdate _ => true
  | _ => false

/-- Effect of one redis pipeline operation on the cache contents (TTL has no
effect within the modelled timeframe; durable operations do not touch redis). -/
def applyRedisOp (r : List (String × Int)) (op : StoreOp) : List (String × Int) :=
  match op with
  | .redisSet k v _ => rset r k v
  | .redisDelete k => rdel r k
  | _ => r

/-- `_bulk_commit_redis_state`: pipeline a `SET` per staged dedupe update, then
a `SET` or `DELETE` per staged counter value, execute the pipeline, and clear
the two staged ephemeral maps. Returns the issued operations in order, the
updated environment, and the handler with the maps cleared. -/
def StatefulDetectorHandler.bulk_commit_redis_state (h : StatefulDetectorHandler)
    (env : Env) : List StoreOp × Env × StatefulDetectorHandler :=
  let dedupeOps := h.dedupe_updates.map (fun u =>
    StoreOp.redisSet (h.build_dedupe_value_key u.1) u.2 REDIS_TTL)
  let counterOps := List.flatten (h.counter_updates.map (fun u =>
    u.2.map (fun c =>
      match c.2 with
      | none => StoreOp.redisDelete (h.build_counter_value_key u.1 c.1)
      | some v => StoreOp.redisSet (h.build_counter_value_key u.1 c.1) v REDIS_TTL)))
  let ops := dedupeOps ++ counterOps
  (ops,
   { env with redis := ops.foldl applyRedisOp env.redis },
   { h with dedupe_updates := [], counter_updates := [] })

/-- Apply a durable bulk update: each stored row whose group key has a queued
updated row takes that row's new field values. -/
def applyDurableUpdates (rows : List DetectorState) (updated : List DetectorState) :
    List DetectorState :=
  rows.map (fun r =>
    match updated.find? (fun u => decide (u.detector_group_key = r.detector_group_key)) with
    | some u => u
    | none => r)

/-- `_bulk_commit_detector_state`: re-fetch the durable rows for the group keys
with staged state updates, queue a create for each key without a row and an
update for each existing row whose fields differ, issue at most one bulk create
and one bulk update, and clear the staged state map. -/
def StatefulDetectorHandler.bulk_commit_detector_state (h : StatefulDetectorHandler)
    (env : Env) : List StoreOp × Env × StatefulDetectorHandler :=
  let detector_state_lookup :=
    StatefulDetectorHandler.bulk_get_detector_state env (h.state_updates.map (fun u => u.1))
  let createdUpdated :=
    h.state_updates.foldl (fun (acc : List DetectorState × List DetectorState) u =>
      match dictLookup detector_state_lookup u.1 with
      | none =>
        (acc.1 ++ [{ detector_group_key := u.1, active := u.2.1, state := u.2.2 }], acc.2)
      | some detector_state =>
        if u.2.1 ≠ detector_state.active ∨ u.2.2 ≠ detector_state.state then
          (acc.1, acc.2 ++ [{ detector_group_key := u.1, active := u.2.1, state := u.2.2 }])
        else acc) ([], [])
  let ops :=
    (if createdUpdated.1.isEmpty then [] else [StoreOp.durableBulkCreate createdUpdated.1]) ++
    (if createdUpdated.2.isEmpty then [] else [StoreOp.durableBulkUpdate createdUpdated.2])
  (ops,
   { env with detector_states :=
      applyDurableUpdates env.detector_states createdUpdated.2 ++ createdUpdated.1 },
   { h with state_updates := [] })

/-- `commit_state_updates`: the durable flush (`_bulk_commit_detector_state`)
runs first, then the ephemeral flush (`_bulk_commit_redis_state`); the returned
operation list is the concatenation in that issue order. -/
def StatefulDetectorHandler.commit_state_updates (h : StatefulDetectorHandler)
    (env : Env) : List StoreOp × Env × StatefulDetectorHandler :=
  let durable := h.bulk_commit_detector_state env
  let ephemeral := durable.2.2.bulk_commit_redis_state durable.2.1
  (durable.1 ++ ephemeral.1, ephemeral.2.1, ephemeral.2.2)

/-- A detector as `process_detectors` sees it: its id and the externally
resolved `detector_handler` (absent when no handler is resolvable); the handler
itself is consumed as an opaque `evaluate(packet) -> results` capability. -/
structure PDDetector where
  id : Nat
  detector_handler : Option (DataPacket → List DetectorEvaluationResult)

/-- The duplicate-group-key scan inside `process_detectors`: walk one detector's
result list with a seen-set, and emit an error-log entry
`(detector_id, group_key)` for every occurrence of an already seen group key. -/
def scanDuplicatesAux (detector_id : Nat) :
    List DetectorEvaluationResult → List DetectorGroupKey →
    List (Nat × DetectorGroupKey) → List (Nat × DetectorGroupKey)
  | [], _, logs => logs
  | result :: rest, seen, logs =>
    let logs1 := if result.group_key ∈ seen then logs ++ [(detector_id, result.group_key)] else logs
    scanDuplicatesAux detector_id rest (result.group_key :: seen) logs1

/-- The duplicate scan started with an empty seen-set and no logs. -/
def scanDuplicates (detector_id : Nat) (results : List DetectorEvaluationResult) :
    List (Nat × DetectorGroupKey) :=
  scanDuplicatesAux detector_id results [] []

/-- `process_detectors`: for each detector in order, skip it when it has no
handler, evaluate it, scan its results for duplicate group keys (collecting the
error-log entries), and append the `(detector, results)` pair only when the
result list is non-empty. Returns the collected pairs and the emitted error
logs. -/
def process_detectors (data_packet : DataPacket) :
    List PDDetector → List (PDDetector × List DetectorEvaluationResult) × List (Nat × DetectorGroupKey)
  | [] => ([], [])
  | detector :: rest =>
    match detector.detector_handler with
    | none => process_detectors data_packet rest
    | some handler =>
      let detector_results := handler data_packet
      let logs := scanDuplicates detector.id detector_results
      let restOut := process_detectors data_packet rest
      ((if detector_results.isEmpty then restOut.1 else (detector, detector_results) :: restOut.1),
       logs ++ restOut.2)

/-- Spec-shaped restatement of the batch processor output (claim C8): keep, in
input order, exactly the detectors with a resolvable handler and a non-empty
result list, paired with their full result lists. -/
def processSpecPairs (data_packet : DataPacket) (detectors : List PDDetector) :
    List (PDDetector × List DetectorEvaluationResult) :=
  detectors.filterMap (fun d =>
    match d.detector_handler with
    | none => none
    | some handler =>
      let rs := handler data_packet
      if rs.isEmpty then none else some (d, rs))

/-- Spec-shaped restatement of the condition fold (claim C6): the priorities of
the conditions that fire on the value. -/
def firedPriorities (conditions : List DataCondition) (value : Int) :
    List DetectorPriorityLevel :=
  conditions.filterMap (fun condition => condition.evaluate_value value)

/-- Spec-shaped restatement of the resulting status (claim C6): the maximum of
the fired priorities, defaulting to the minimum `OK` when none fires. -/
def specStatus (conditions : List DataCondition) (value : Int) :
    DetectorPriorityLevel :=
  (firedPriorities conditions value).foldl max DetectorPriorityLevel.OK

/-- Implicit invariant of the staged maps (claim C10): every group key staged in
`state_updates` or `counter_updates` is also staged in `dedupe_updates`. -/
def stagedInvariant (h : StatefulDetectorHandler) : Prop :=
  (∀ e ∈ h.state_updates, (dictLookup h.dedupe_updates e.1).isSome = true) ∧
  (∀ e ∈ h.counter_updates, (dictLookup h.dedupe_updates e.1).isSome = true)

instance (h : StatefulDetectorHandler) : Decidable (stagedInvariant h) := by
  unfold stagedInvariant; infer_instance

/-- A detector configured with condition group 10. -/
def okDetector : Detector := { id := 1, workflow_condition_group_id := some 10 }

/-- A detector with no condition group configured. -/
def noGroupDetector : Detector := { id := 2, workflow_condition_group_id := none }

/-- A condition firing WARNING-level priority 75 on values above 10. -/
def warningCondition : DataCondition :=
  { evaluate_value := fun v => if 10 < v then some 75 else none }

/-- A condition-group table holding group 10 with the warning condition. -/
def sampleTable : DataConditionGroupTable :=
  { groups := [(10, [warningCondition])] }

/-- A handler for `okDetector` declaring one counter named n. -/
def sampleHandler : StatefulDetectorHandler :=
  StatefulDetectorHandler.init sampleTable okDetector ["n"]

/-- A handler for `okDetector` declaring no counters. -/
def noCounterHandler : StatefulDetectorHandler :=
  StatefulDetectorHandler.init sampleTable okDetector []

/-- A handler for `noGroupDetector`. -/
def noGroupHandler : StatefulDetectorHandler :=
  StatefulDetectorHandler.init sampleTable noGroupDetector []

/-- Empty stores. -/
def sampleEnv : Env := { redis := [], detector_states := [] }

/-- The default state snapshot for group g1 (fresh group key). -/
def sampleStateData : DetectorStateData :=
  { group_key := some "g1", active := false, status := DetectorPriorityLevel.OK,
    dedupe_value := 0, counter_updates := [] }

/-- A packet with dedupe value 1 and one observation. -/
def samplePacket : DataPacket :=
  { dedupe_value := 1, group_values := [(some "g1", 15)] }

/-- A handler result list containing the same group key twice. -/
def dupHandlerFun : DataPacket → List DetectorEvaluationResult := fun _ =>
  [{ group_key := some "g", is_active := true, priority := 75, data := [] },
   { group_key := some "g", is_active := false, priority := 0, data := [] }]

/-- A detector whose handler returns duplicate group keys. -/
def dupDetector : PDDetector := { id := 7, detector_handler := some dupHandlerFun }

/-- A detector with no resolvable handler. -/
def noHandlerDetector : PDDetector := { id := 9, detector_handler := none }

/-- A handler instance with one staged dedupe update and one staged state
update, about to commit. -/
def commitHandler : StatefulDetectorHandler :=
  { detector := okDetector, counter_names := [],
    condition_group := some { id := 10 }, conditions := [],
    dedupe_updates := [(some "g", 5)], counter_updates := [],
    state_updates := [(some "g", (true, 75))] }

theorem dictLookup_dictInsert {α β : Type} [DecidableEq α]
    (m : List (α × β)) (k k' : α) (v : β) :
    dictLookup (dictInsert m k v) k' = if k = k' then some v else dictLookup m k' := by
  induction m with
  | nil => simp [dictInsert, dictLookup]
  | cons e rest ih =>
    obtain ⟨a, b⟩ := e
    by_cases he : a = k
    · subst he
      by_cases hk : a = k'
      · subst hk
        simp [dictInsert, dictLookup]
      · simp [dictInsert, dictLookup, hk]
    · by_cases he' : a = k'
      · subst he'
        have hkk : ¬ k = a := fun hh => he hh.symm
        simp [dictInsert, dictLookup, he, hkk]
      · simp [dictInsert, dictLookup, he, he', ih]

theorem dictInsert_mem {α β : Type} [DecidableEq α]
    (m : List (α × β)) (k : α) (v : β) (e : α × β)
    (hmem : e ∈ dictInsert m k v) : e = (k, v) ∨ e ∈ m := by
  induction m with
  | nil => simpa [dictInsert] using hmem
  | cons f rest ih =>
    by_cases hf : f.1 = k
    · simp only [dictInsert, if_pos hf] at hmem
      rcases List.mem_cons.mp hmem with h | h
      · exact Or.inl h
      · exact Or.inr (List.mem_cons_of_mem _ h)
    · simp only [dictInsert, if_neg hf] at hmem
      rcases List.mem_cons.mp hmem with h | h
      · exact Or.inr (h ▸ List.mem_cons_self _ _)
      · rcases ih h with h1 | h1
        · exact Or.inl h1
        · exact Or.inr (List.mem_cons_of_mem _ h1)

theorem countKey_pos_mem (gk : DetectorGroupKey) (l : List DetectorGroupKey)
    (hpos : 1 ≤ countKey gk l) : gk ∈ l := by
  induction l with
  | nil => simp [countKey] at hpos
  | cons k rest ih =>
    by_cases hk : k = gk
    · exact hk ▸ List.mem_cons_self _ _
    · simp only [countKey, if_neg hk, Nat.zero_add] at hpos
      exact List.mem_cons_of_mem _ (ih hpos)

theorem computeStatusFrom_eq (conditions : List DataCondition) (value : Int)
    (a : DetectorPriorityLevel) :
    conditions.foldl (fun status condition =>
      match condition.evaluate_value value with
      | some evaluation => max status evaluation
      | none => status) a
    = (firedPriorities conditions value).foldl max a := by
  induction conditions generalizing a with
  | nil => simp [firedPriorities]
  | cons c rest ih =>
    simp only [List.foldl_cons, firedPriorities, List.filterMap_cons]
    cases hc : c.evaluate_value value with
    | none => simpa [firedPriorities] using ih a
    | some p => simpa [firedPriorities] using ih (max a p)

theorem le_foldl_max (l : List DetectorPriorityLevel) (a : DetectorPriorityLevel) :
    a ≤ l.foldl max a := by
  induction l generalizing a with
  | nil => simp
  | cons b rest ih => exact le_trans (le_max_left a b) (ih (max a b))

theorem mem_le_foldl_max (l : List DetectorPriorityLevel)
    (a p : DetectorPriorityLevel) (hmem : p ∈ l) : p ≤ l.foldl max a := by
  induction l generalizing a with
  | nil => simp at hmem
  | cons b rest ih =>
    simp only [List.foldl_cons]
    rcases List.mem_cons.mp hmem with h | h
    · subst h
      exact le_trans (le_max_right a p) (le_foldl_max rest (max a p))
    · exact ih (max a b) h

theorem foldl_max_mem (l : List DetectorPriorityLevel) (a : DetectorPriorityLevel) :
    l.foldl max a = a ∨ l.foldl max a ∈ l := by
  induction l generalizing a with
  | nil => simp
  | cons b rest ih =>
    rcases ih (max a b) with h | h
    · rcases max_choice a b with hm | hm
      · exact Or.inl (by simp only [List.foldl_cons]; rw [h, hm])
      · exact Or.inr (by simp only [List.foldl_cons]; rw [h, hm]; exact List.mem_cons_self _ _)
    · exact Or.inr (List.mem_cons_of_mem _ h)

theorem scanDuplicatesAux_sub (detector_id : Nat)
    (results : List DetectorEvaluationResult) (seen : List DetectorGroupKey)
    (logs : List (Nat × DetectorGroupKey)) (e : Nat × DetectorGroupKey)
    (hmem : e ∈ logs) : e ∈ scanDuplicatesAux detector_id results seen logs := by
  induction results generalizing seen logs with
  | nil => simpa [scanDuplicatesAux] using hmem
  | cons r rest ih =>
    simp only [scanDuplicatesAux]
    by_cases hs : r.group_key ∈ seen
    · simp only [if_pos hs]
      exact ih _ _ (List.mem_append_left _ hmem)
    · simp only [if_neg hs]
      exact ih _ _ hmem

theorem scanDuplicatesAux_mem (detector_id : Nat)
    (results : List DetectorEvaluationResult) (seen : List DetectorGroupKey)
    (logs : List (Nat × DetectorGroupKey)) (gk : DetectorGroupKey)
    (hdup : (gk ∈ seen ∧ gk ∈ results.map (fun r => r.group_key)) ∨
      2 ≤ countKey gk (results.map (fun r => r.group_key))) :
    (detector_id, gk) ∈ scanDuplicatesAux detector_id results seen logs := by
  induction results generalizing seen logs with
  | nil =>
    rcases hdup with ⟨_, hmem⟩ | hcount
    · simp at hmem
    · simp [countKey] at hcount
  | cons r rest ih =>
    simp only [scanDuplicatesAux]
    by_cases hr : r.group_key = gk
    · by_cases hs : gk ∈ seen
      · have hseen : r.group_key ∈ seen := hr ▸ hs
        simp only [if_pos hseen]
        exact scanDuplicatesAux_sub _ _ _ _ _
          (List.mem_append_right _ (hr ▸ List.mem_singleton.mpr rfl))
      · apply ih
        left
        constructor
        · exact hr ▸ List.mem_cons_self _ _
        · rcases hdup with ⟨hgs, _⟩ | hcount
          · exact absurd hgs hs
          · simp only [List.map_cons, countKey, if_pos hr] at hcount
            exact countKey_pos_mem gk _ (by omega)
    · have hcnt : countKey gk ((r :: rest).map (fun r => r.group_key)) =
        countKey gk (rest.map (fun r => r.group_key)) := by
        simp [countKey, hr]
      apply ih
      rcases hdup with ⟨hgs, hmem⟩ | hcount
      · left
        refine ⟨List.mem_cons_of_mem _ hgs, ?_⟩
        have hmem' : gk ∈ r.group_key :: rest.map (fun r => r.group_key) := by
          simpa using hmem
        rcases List.mem_cons.mp hmem' with h | h
        · exact absurd h.symm hr
        · exact h
      · right
        rw [hcnt] at hcount
        exact hcount

theorem process_detectors_pair_mem (data_packet : DataPacket)
    (detectors : List PDDetector) (d : PDDetector)
    (f : DataPacket → List DetectorEvaluationResult)
    (hmem : d ∈ detectors) (hf : d.detector_handler = some f)
    (hne : (f data_packet).isEmpty = false) :
    (d, f data_packet) ∈ (process_detectors data_packet detectors).1 := by
  induction detectors with
  | nil => simp at hmem
  | cons d0 rest ih =>
    rcases List.mem_cons.mp hmem with h | h
    · subst h
      simp only [process_detectors, hf, hne]
      exact List.mem_cons_self _ _
    · cases hd0 : d0.detector_handler with
      | none => simpa [process_detectors, hd0] using ih h
      | some f0 =>
        by_cases he : (f0 data_packet).isEmpty
        · simpa [process_detectors, hd0, he] using ih h
        · simp only [process_detectors, hd0, eq_false_of_ne_true he, Bool.false_eq_true,
            if_false]
          exact List.mem_cons_of_mem _ (ih h)

theorem process_detectors_log_mem (data_packet : DataPacket)
    (detectors : List PDDetector) (d : PDDetector)
    (f : DataPacket → List DetectorEvaluationResult) (gk : DetectorGroupKey)
    (hmem : d ∈ detectors) (hf : d.detector_handler = some f)
    (hdup : 2 ≤ countKey gk ((f data_packet).map (fun r => r.group_key))) :
    (d.id, gk) ∈ (process_detectors data_packet detectors).2 := by
  induction detectors with
  | nil => simp at hmem
  | cons d0 rest ih =>
    rcases List.mem_cons.mp hmem with h | h
    · subst h
      simp only [process_detectors, hf]
      exact List.mem_append_left _
        (scanDuplicatesAux_mem _ _ _ _ _ (Or.inr hdup))
    · cases hd0 : d0.detector_handler with
      | none => simpa [process_detectors, hd0] using ih h
      | some f0 =>
        simp only [process_detectors, hd0]
        exact List.mem_append_right _ (ih h)

theorem isSome_dictLookup_dictInsert {α β : Type} [DecidableEq α]
    (m : List (α × β)) (k k' : α) (v : β)
    (hk : (dictLookup m k').isSome = true) :
    (dictLookup (dictInsert m k v) k').isSome = true := by
  rw [dictLookup_dictInsert]
  split
  · rfl
  · exact hk

theorem dictLookup_dictInsert_self {α β : Type} [DecidableEq α]
    (m : List (α × β)) (k : α) (v : β) :
    dictLookup (dictInsert m k v) k = some v := by
  rw [dictLookup_dictInsert, if_pos rfl]

theorem stagedInvariant_evaluate_group_key_value (h : StatefulDetectorHandler)
    (group_key : DetectorGroupKey) (value : Int) (state_data : DetectorStateData)
    (dedupe_value : Int) (hinv : stagedInvariant h) :
    stagedInvariant
      (h.evaluate_group_key_value group_key value state_data dedupe_value).2 := by
  obtain ⟨det, cn, cg, conds, dm, cm, sm⟩ := h
  obtain ⟨hs, hc⟩ := hinv
  unfold StatefulDetectorHandler.evaluate_group_key_value
  by_cases hd : dedupe_value ≤ state_data.dedupe_value
  · simp only [if_pos hd]
    exact ⟨hs, hc⟩
  · simp only [if_neg hd, StatefulDetectorHandler.enqueue_dedupe_update,
      StatefulDetectorHandler.enqueue_counter_update,
      StatefulDetectorHandler.enqueue_state_update]
    have hsome : (dictLookup (dictInsert dm group_key dedupe_value)
        group_key).isSome = true := by
      rw [dictLookup_dictInsert_self]; rfl
    have hs1 : ∀ e ∈ sm,
        (dictLookup (dictInsert dm group_key dedupe_value) e.1).isSome = true :=
      fun e he => isSome_dictLookup_dictInsert _ _ _ _ (hs e he)
    have hc1 : ∀ e ∈ cm,
        (dictLookup (dictInsert dm group_key dedupe_value) e.1).isSome = true :=
      fun e he => isSome_dictLookup_dictInsert _ _ _ _ (hc e he)
    split
    · exact ⟨hs1, hc1⟩
    · split
      · refine ⟨fun e he => ?_, fun e he => ?_⟩
        · rcases dictInsert_mem sm group_key _ e he with he1 | he1
          · rw [he1]
            exact hsome
          · exact hs1 e he1
        · rcases dictInsert_mem cm group_key _ e he with he1 | he1
          · rw [he1]
            exact hsome
          · exact hc1 e he1
      · refine ⟨fun e he => hs1 e he, fun e he => ?_⟩
        rcases dictInsert_mem cm group_key _ e he with he1 | he1
        · rw [he1]
          exact hsome
        · exact hc1 e he1

theorem stagedInvariant_evaluateFold
    (all_state_data : List (DetectorGroupKey × DetectorStateData))
    (dedupe_value : Int) :
    ∀ (gvs : List (DetectorGroupKey × Int))
      (acc : Option (List DetectorEvaluationResult × StatefulDetectorHandler)),
    (∀ rs hh, acc = some (rs, hh) → stagedInvariant hh) →
    ∀ out, gvs.foldl (fun acc gv =>
      match acc with
      | none => none
      | some (results, hCur) =>
        match dictLookup all_state_data gv.1 with
        | none => none
        | some state_data =>
          let o := hCur.evaluate_group_key_value gv.1 gv.2 state_data dedupe_value
          some ((match o.1 with
                 | some result => results ++ [result]
                 | none => results), o.2)) acc = some out →
    stagedInvariant out.2 := by
  intro gvs
  induction gvs with
  | nil =>
    intro acc hacc out hout
    simp only [List.foldl_nil] at hout
    exact (hacc out.1 out.2 (by rw [hout])).imp id id
  | cons gv rest ih =>
    intro acc hacc out hout
    simp only [List.foldl_cons] at hout
    refine ih _ ?_ out hout
    intro rs hh hstep
    cases acc with
    | none => simp at hstep
    | some p =>
      obtain ⟨results, hCur⟩ := p
      have hpinv := hacc results hCur rfl
      cases hlk : dictLookup all_state_data gv.1 with
      | none => simp [hlk] at hstep
      | some state_data =>
        simp only [hlk] at hstep
        have hh2 := congrArg (fun x => Option.map Prod.snd x) hstep
        simp only [Option.map_some] at hh2
        have : hh = (hCur.evaluate_group_key_value gv.1 gv.2 state_data dedupe_value).2 := by
          injection hh2 with hh3
          exact hh3.symm
        rw [this]
        exact stagedInvariant_evaluate_group_key_value _ _ _ _ _ hpinv

theorem stagedInvariant_evaluate (h : StatefulDetectorHandler) (env : Env)
    (data_packet : DataPacket)
    (out : List DetectorEvaluationResult × StatefulDetectorHandler)
    (hinv : stagedInvariant h) (heval : h.evaluate env data_packet = some out) :
    stagedInvariant out.2 := by
  simp only [StatefulDetectorHandler.evaluate] at heval
  cases hsd : h.get_state_data env
      ((StatefulDetectorHandler.get_group_key_values data_packet).map (fun gv => gv.1)) with
  | none => rw [hsd] at heval; simp at heval
  | some all_state_data =>
    rw [hsd] at heval
    exact stagedInvariant_evaluateFold all_state_data _ _ _
      (fun rs hh hacc => by
        injection hacc with hacc1
        injection hacc1 with h1 h2
        rw [← h2]
        exact hinv) out heval

theorem stagedInvariant_evalSeq (env : Env) :
    ∀ (packets : List DataPacket) (h h' : StatefulDetectorHandler),
    stagedInvariant h → evalSeq h env packets = some h' → stagedInvariant h' := by
  intro packets
  induction packets with
  | nil =>
    intro h h' hinv hseq
    simp only [evalSeq] at hseq
    injection hseq with hseq1
    rw [hseq1] at hinv
    exact hinv
  | cons p rest ih =>
    intro h h' hinv hseq
    simp only [evalSeq] at hseq
    cases heval : h.evaluate env p with
    | none => rw [heval] at hseq; simp at hseq
    | some out =>
      rw [heval] at hseq
      exact ih out.2 h' (stagedInvariant_evaluate h env p out hinv heval) hseq

/-- Claim C3: when the packet's dedupe value is less than or equal to the stored
watermark, `evaluate_group_key_value` returns no result and leaves the handler,
hence all three staged-update maps, unchanged; re-evaluating an
already-processed packet any number of times is therefore a no-op apart from the
skip metric. -/
theorem c3_dedupe_guard_no_op (h : StatefulDetectorHandler)
    (group_key : DetectorGroupKey) (value : Int) (state_data : DetectorStateData)
    (dedupe_value : Int) (hle : dedupe_value ≤ state_data.dedupe_value) :
    h.evaluate_group_key_value group_key value state_data dedupe_value = (none, h) := by
  unfold StatefulDetectorHandler.evaluate_group_key_value
  rw [if_pos hle]

/-- Witness for claim C3 at a concrete already-processed packet (dedupe value 3
against stored watermark 3). -/
theorem c3_dedupe_guard_no_op_witness :
    StatefulDetectorHandler.evaluate_group_key_value sampleHandler (some "g1") 15
      { group_key := some "g1", active := false, status := DetectorPriorityLevel.OK,
        dedupe_value := 3, counter_updates := [] } 3 = (none, sampleHandler) :=
  c3_dedupe_guard_no_op sampleHandler (some "g1") 15
    { group_key := some "g1", active := false, status := DetectorPriorityLevel.OK,
      dedupe_value := 3, counter_updates := [] } 3 (by decide)

/-- Claim C5: for a handler without a condition group, when the dedupe check
passes, `evaluate_group_key_value` emits no result, stages only the dedupe
watermark update (counter and state maps unchanged), and after a commit from a
fresh handler the redis watermark has advanced to the new dedupe value. -/
theorem c5_no_condition_group_stages_dedupe (h : StatefulDetectorHandler)
    (group_key : DetectorGroupKey) (value : Int) (state_data : DetectorStateData)
    (dedupe_value : Int) (env : Env)
    (hg : h.condition_group = none) (hlt : state_data.dedupe_value < dedupe_value) :
    (h.evaluate_group_key_value group_key value state_data dedupe_value).1 = none ∧
    (h.evaluate_group_key_value group_key value state_data dedupe_value).2.dedupe_updates =
      dictInsert h.dedupe_updates group_key dedupe_value ∧
    dictLookup
      (h.evaluate_group_key_value group_key value state_data dedupe_value).2.dedupe_updates
      group_key = some dedupe_value ∧
    (h.evaluate_group_key_value group_key value state_data dedupe_value).2.counter_updates =
      h.counter_updates ∧
    (h.evaluate_group_key_value group_key value state_data dedupe_value).2.state_updates =
      h.state_updates ∧
    (h.dedupe_updates = [] → h.counter_updates = [] → h.state_updates = [] →
      rget (((h.evaluate_group_key_value group_key value state_data
          dedupe_value).2.commit_state_updates env).2.1.redis)
        (h.build_dedupe_value_key group_key) = some dedupe_value) := by
  obtain ⟨det, cn, cg, conds, dm, cm, sm⟩ := h
  have hg' : cg = none := hg
  subst hg'
  unfold StatefulDetectorHandler.evaluate_group_key_value
  rw [if_neg (not_le.mpr hlt)]
  refine ⟨rfl, rfl, dictLookup_dictInsert_self _ _ _, rfl, rfl, ?_⟩
  intro hdm hcm hsm
  have hdm' : dm = [] := hdm
  have hcm' : cm = [] := hcm
  have hsm' : sm = [] := hsm
  subst hdm' hcm' hsm'
  exact dictLookup_dictInsert_self _ _ _

/-- Witness for claim C5: a handler with no condition group, a fresh group key,
and dedupe value 1; after evaluation and commit the redis watermark is 1. -/
theorem c5_no_condition_group_stages_dedupe_witness :
    rget (((StatefulDetectorHandler.evaluate_group_key_value noGroupHandler (some "g1") 15
        sampleStateData 1).2.commit_state_updates sampleEnv).2.1.redis)
      (noGroupHandler.build_dedupe_value_key (some "g1")) = some 1 :=
  (c5_no_condition_group_stages_dedupe noGroupHandler (some "g1") 15 sampleStateData 1
    sampleEnv rfl (by decide)).2.2.2.2.2 rfl rfl rfl

/-- Claim C1 (code-bug evidence): for a detector declaring one counter, a group
key with no durable row, no dedupe entry and no counter entries gets the default
snapshot (active false, status OK, dedupe 0, counter n unset); but for a
detector whose `counter_names` list is empty, `get_state_data` does not return
defaults: `counter_updates` stays the empty dict and the `counter_updates[gk]`
subscript raises `KeyError` (embedded as `none`). -/
theorem c1_get_state_data_defaults_and_empty_counters_key_error :
    StatefulDetectorHandler.get_state_data sampleHandler sampleEnv [some "g1"] =
      some [(some "g1",
        { group_key := some "g1", active := false, status := DetectorPriorityLevel.OK,
          dedupe_value := 0, counter_updates := [("n", none)] })] ∧
    StatefulDetectorHandler.get_state_data noCounterHandler sampleEnv [some "g1"] = none := by
  constructor
  · rfl
  · rfl

/-- Claim C2 (counterexample): at a handler with one staged dedupe update and
one staged state update, the commit operation trace is not of the shape
"all ephemeral operations first, then all durable operations": the durable bulk
create is issued before the redis set. -/
theorem c2_commit_order_counterexample :
    ¬ ((commitHandler.commit_state_updates sampleEnv).1 =
      ((commitHandler.commit_state_updates sampleEnv).1.filter
        (fun op => ! op.isDurable)) ++
      ((commitHandler.commit_state_updates sampleEnv).1.filter
        (fun op => op.isDurable))) := by
  decide

/-- Claim C2 (amended): `commit_state_updates` performs two independent flushes
in the order durable flush first (bulk create and update of DetectorState rows),
then ephemeral flush (pipeline of staged dedupe and counter writes): its
operation trace is the durable-flush trace, all of whose operations target the
durable store, followed by the ephemeral-flush trace, all of whose operations
target the ephemeral store. -/
theorem c2_commit_durable_flush_then_ephemeral_flush (h : StatefulDetectorHandler)
    (env : Env) :
    (h.commit_state_updates env).1 =
      (h.bulk_commit_detector_state env).1 ++
      ((h.bulk_commit_detector_state env).2.2.bulk_commit_redis_state
        (h.bulk_commit_detector_state env).2.1).1 ∧
    ((h.bulk_commit_detector_state env).1.all (fun op => op.isDurable)) = true ∧
    (((h.bulk_commit_detector_state env).2.2.bulk_commit_redis_state
        (h.bulk_commit_detector_state env).2.1).1.all (fun op => ! op.isDurable)) = true := by
  refine ⟨rfl, ?_, ?_⟩
  · rw [List.all_eq_true]
    intro op hop
    simp only [StatefulDetectorHandler.bulk_commit_detector_state] at hop
    rcases List.mem_append.mp hop with h1 | h1
    · split at h1
      · simp at h1
      · rw [List.mem_singleton.mp h1]
        rfl
    · split at h1
      · simp at h1
      · rw [List.mem_singleton.mp h1]
        rfl
  · rw [List.all_eq_true]
    intro op hop
    simp only [StatefulDetectorHandler.bulk_commit_redis_state] at hop
    rcases List.mem_append.mp hop with h1 | h1
    · rcases List.mem_map.mp h1 with ⟨u, hu, rfl⟩
      rfl
    · rcases List.mem_flatten.mp h1 with ⟨sub, hsub, hopsub⟩
      rcases List.mem_map.mp hsub with ⟨u, hu, rfl⟩
      rcases List.mem_map.mp hopsub with ⟨c, hc, rfl⟩
      obtain ⟨cname, cval⟩ := c
      cases cval <;> rfl

/-- Claim C4: when the dedupe check passes (stored watermark strictly below the
packet dedupe value) and a condition group is configured,
`evaluate_group_key_value` stages the dedupe watermark update to the new value,
and emits a result if and only if the computed (is_active, status) differs from
the stored (active, status): when unchanged it stages no state update and
returns no result; when changed it stages the state update and returns
`DetectorEvaluationResult(group_key, is_active, status, empty data)`. -/
theorem c4_state_change_only_emission (h : StatefulDetectorHandler)
    (g : DataConditionGroup) (group_key : DetectorGroupKey) (value : Int)
    (state_data : DetectorStateData) (dedupe_value : Int)
    (hg : h.condition_group = some g)
    (hlt : state_data.dedupe_value < dedupe_value) :
    dictLookup
      (h.evaluate_group_key_value group_key value state_data dedupe_value).2.dedupe_updates
      group_key = some dedupe_value ∧
    ((state_data.active = decide (computeStatus h.conditions value ≠ DetectorPriorityLevel.OK) ∧
      state_data.status = computeStatus h.conditions value) →
      (h.evaluate_group_key_value group_key value state_data dedupe_value).1 = none ∧
      (h.evaluate_group_key_value group_key value state_data dedupe_value).2.state_updates =
        h.state_updates) ∧
    (¬ (state_data.active = decide (computeStatus h.conditions value ≠ DetectorPriorityLevel.OK) ∧
      state_data.status = computeStatus h.conditions value) →
      (h.evaluate_group_key_value group_key value state_data dedupe_value).1 =
        some { group_key := group_key,
               is_active := decide (computeStatus h.conditions value ≠ DetectorPriorityLevel.OK),
               priority := computeStatus h.conditions value, data := [] } ∧
      dictLookup
        (h.evaluate_group_key_value group_key value state_data dedupe_value).2.state_updates
        group_key =
        some (decide (computeStatus h.conditions value ≠ DetectorPriorityLevel.OK),
          computeStatus h.conditions value)) := by
  obtain ⟨det, cn, cg, conds, dm, cm, sm⟩ := h
  have hg' : cg = some g := hg
  subst hg'
  unfold StatefulDetectorHandler.evaluate_group_key_value
  rw [if_neg (not_le.mpr hlt)]
  simp only [StatefulDetectorHandler.enqueue_dedupe_update,
    StatefulDetectorHandler.enqueue_counter_update,
    StatefulDetectorHandler.enqueue_state_update]
  by_cases hch : state_data.active ≠ decide (computeStatus conds value ≠ DetectorPriorityLevel.OK) ∨
      state_data.status ≠ computeStatus conds value
  · rw [if_pos hch]
    refine ⟨dictLookup_dictInsert_self _ _ _, ?_, ?_⟩
    · intro hcontra
      rcases hch with h1 | h1
      · exact absurd hcontra.1 h1
      · exact absurd hcontra.2 h1
    · intro hne
      exact ⟨rfl, dictLookup_dictInsert_self _ _ _⟩
  · rw [if_neg hch]
    push_neg at hch
    refine ⟨dictLookup_dictInsert_self _ _ _, ?_, ?_⟩
    · intro hcontra
      exact ⟨rfl, rfl⟩
    · intro hne
      exact absurd ⟨hch.1, hch.2⟩ hne

/-- Witness for claim C4: the sample handler (value above 10 fires WARNING) on a
fresh group key with dedupe value 1 stages the watermark update. -/
theorem c4_state_change_only_emission_witness :
    dictLookup (StatefulDetectorHandler.evaluate_group_key_value sampleHandler (some "g1") 15
      sampleStateData 1).2.dedupe_updates (some "g1") = some 1 :=
  (c4_state_change_only_emission sampleHandler { id := 10 } (some "g1") 15
    sampleStateData 1 rfl (by decide)).1

/-- Claim C6: on a handler with a condition group, when the dedupe check passes,
the computed status is the maximum of the priorities of the conditions that
fire on the value (an upper bound of the fired priorities that is either OK or
one of them), defaulting to OK when none fires, and any emitted result carries
that status with is_active true exactly when the status is strictly above OK. -/
theorem c6_status_is_max_fired_priority (h : StatefulDetectorHandler)
    (g : DataConditionGroup) (group_key : DetectorGroupKey) (value : Int)
    (state_data : DetectorStateData) (dedupe_value : Int)
    (hg : h.condition_group = some g)
    (hlt : state_data.dedupe_value < dedupe_value) :
    computeStatus h.conditions value = specStatus h.conditions value ∧
    (∀ p ∈ firedPriorities h.conditions value, p ≤ computeStatus h.conditions value) ∧
    (computeStatus h.conditions value = DetectorPriorityLevel.OK ∨
      computeStatus h.conditions value ∈ firedPriorities h.conditions value) ∧
    (∀ r, (h.evaluate_group_key_value group_key value state_data dedupe_value).1 = some r →
      r.priority = computeStatus h.conditions value ∧
      r.is_active = decide (computeStatus h.conditions value ≠ DetectorPriorityLevel.OK) ∧
      (r.is_active = true ↔ DetectorPriorityLevel.OK < r.priority)) := by
  have hcs : computeStatus h.conditions value =
      (firedPriorities h.conditions value).foldl max DetectorPriorityLevel.OK :=
    computeStatusFrom_eq h.conditions value DetectorPriorityLevel.OK
  refine ⟨hcs, ?_, ?_, ?_⟩
  · intro p hp
    rw [hcs]
    exact mem_le_foldl_max _ _ _ hp
  · rw [hcs]
    exact foldl_max_mem _ _
  · intro r hr
    obtain ⟨det, cn, cg, conds, dm, cm, sm⟩ := h
    have hg' : cg = some g := hg
    subst hg'
    unfold StatefulDetectorHandler.evaluate_group_key_value at hr
    rw [if_neg (not_le.mpr hlt)] at hr
    simp only [StatefulDetectorHandler.enqueue_dedupe_update,
      StatefulDetectorHandler.enqueue_counter_update,
      StatefulDetectorHandler.enqueue_state_update] at hr
    by_cases hch : state_data.active ≠ decide (computeStatus conds value ≠ DetectorPriorityLevel.OK) ∨
        state_data.status ≠ computeStatus conds value
    · rw [if_pos hch] at hr
      injection hr with hr1
      rw [← hr1]
      refine ⟨rfl, rfl, ?_⟩
      constructor
      · intro hi
        have hne : computeStatus conds value ≠ DetectorPriorityLevel.OK := of_decide_eq_true hi
        exact Nat.pos_of_ne_zero hne
      · intro hp
        exact decide_eq_true (Nat.pos_iff_ne_zero.mp hp)
    · rw [if_neg hch] at hr
      simp at hr

/-- Witness for claim C6: the sample handler at value 15 computes the
spec-shaped maximum fired priority. -/
theorem c6_status_is_max_fired_priority_witness :
    computeStatus sampleHandler.conditions 15 = specStatus sampleHandler.conditions 15 :=
  (c6_status_is_max_fired_priority sampleHandler { id := 10 } (some "g1") 15
    sampleStateData 1 rfl (by decide)).1

/-- Claim C7: when a detector's result list contains the same group key at least
twice, `process_detectors` emits an error log with the detector id and that
group key, but continues processing: the duplicate-carrying detector's full,
unmodified result list still appears in the output, and every other detector
with a handler and non-empty results still contributes its pair. -/
theorem c7_duplicate_group_keys_logged_not_dropped (data_packet : DataPacket)
    (detectors : List PDDetector) (d : PDDetector)
    (f : DataPacket → List DetectorEvaluationResult) (gk : DetectorGroupKey)
    (hmem : d ∈ detectors) (hf : d.detector_handler = some f)
    (hdup : 2 ≤ countKey gk ((f data_packet).map (fun r => r.group_key))) :
    (d.id, gk) ∈ (process_detectors data_packet detectors).2 ∧
    (d, f data_packet) ∈ (process_detectors data_packet detectors).1 ∧
    (∀ d2 f2, d2 ∈ detectors → d2.detector_handler = some f2 →
      (f2 data_packet).isEmpty = false →
      (d2, f2 data_packet) ∈ (process_detectors data_packet detectors).1) := by
  have hne : (f data_packet).isEmpty = false := by
    cases hfp : f data_packet with
    | nil => rw [hfp] at hdup; simp [countKey] at hdup
    | cons a l => rfl
  exact ⟨process_detectors_log_mem data_packet detectors d f gk hmem hf hdup,
    process_detectors_pair_mem data_packet detectors d f hmem hf hne,
    fun d2 f2 hm2 hf2 hne2 =>
      process_detectors_pair_mem data_packet detectors d2 f2 hm2 hf2 hne2⟩

/-- Witness for claim C7: a detector returning group g twice gets a duplicate
log entry. -/
theorem c7_duplicate_group_keys_logged_not_dropped_witness :
    (7, some "g") ∈ (process_detectors samplePacket [dupDetector]).2 :=
  (c7_duplicate_group_keys_logged_not_dropped samplePacket [dupDetector] dupDetector
    dupHandlerFun (some "g") (List.mem_singleton.mpr rfl) rfl (by decide)).1

/-- Claim C8: `process_detectors` keeps, in input order, exactly the detectors
with a resolvable handler and a non-empty result list, paired with their full
result lists; a detector without a resolvable handler is skipped silently,
leaving the whole output (pairs and logs) unchanged. -/
theorem c8_process_detectors_filter_shape (data_packet : DataPacket)
    (detectors : List PDDetector) :
    (process_detectors data_packet detectors).1 = processSpecPairs data_packet detectors ∧
    (∀ d, d.detector_handler = none →
      process_detectors data_packet (d :: detectors) =
        process_detectors data_packet detectors) := by
  constructor
  · induction detectors with
    | nil => rfl
    | cons d rest ih =>
      cases hd : d.detector_handler with
      | none => simp [process_detectors, processSpecPairs, hd, ih,
          List.filterMap_cons]
      | some f =>
        by_cases he : (f data_packet).isEmpty
        · simp only [process_detectors, hd, he, if_true, processSpecPairs,
            List.filterMap_cons, if_pos he]
          exact ih
        · simp only [process_detectors, hd, eq_false_of_ne_true he,
            Bool.false_eq_true, if_false, processSpecPairs, List.filterMap_cons,
            if_neg he]
          rw [ih]
          rfl
  · intro d hd
    simp [process_detectors, hd]

/-- Witness for claim C8: skipping a handler-less detector leaves the output
unchanged. -/
theorem c8_process_detectors_filter_shape_witness :
    process_detectors samplePacket (noHandlerDetector :: [dupDetector]) =
      process_detectors samplePacket [dupDetector] :=
  (c8_process_detectors_filter_shape samplePacket [dupDetector]).2 noHandlerDetector rfl

/-- Claim C9: when a detector's configured condition group id has no row in the
condition-group table, handler construction does not fail:
`get_data_group_conditions_and_group` returns the not-found fallback
`(none, [])`, so the handler ends up with no condition group and no conditions,
exactly like the handler of a detector with no condition group configured. -/
theorem c9_missing_condition_group_falls_back (db : DataConditionGroupTable)
    (gid : Nat) (detector : Detector) (counter_names : List String)
    (hmissing : dictLookup db.groups gid = none)
    (hconfigured : detector.workflow_condition_group_id = some gid) :
    get_data_group_conditions_and_group db gid = (none, []) ∧
    (StatefulDetectorHandler.init db detector counter_names).condition_group = none ∧
    (StatefulDetectorHandler.init db detector counter_names).conditions = [] ∧
    (StatefulDetectorHandler.init db detector counter_names).condition_group =
      (StatefulDetectorHandler.init db
        { id := detector.id, workflow_condition_group_id := none }
        counter_names).condition_group ∧
    (StatefulDetectorHandler.init db detector counter_names).conditions =
      (StatefulDetectorHandler.init db
        { id := detector.id, workflow_condition_group_id := none }
        counter_names).conditions := by
  have hget : get_data_group_conditions_and_group db gid = (none, []) := by
    unfold get_data_group_conditions_and_group
    rw [hmissing]
  obtain ⟨did, dgid⟩ := detector
  have hconf : dgid = some gid := hconfigured
  subst hconf
  refine ⟨hget, ?_, ?_, ?_, ?_⟩ <;>
    simp [StatefulDetectorHandler.init, hget]

/-- Witness for claim C9: group id 99 is absent from the sample table; the
handler of a detector configured with it falls back to no group. -/
theorem c9_missing_condition_group_falls_back_witness :
    get_data_group_conditions_and_group sampleTable 99 = (none, []) :=
  (c9_missing_condition_group_falls_back sampleTable 99
    { id := 3, workflow_condition_group_id := some 99 } [] rfl rfl).1

/-- Claim C10: starting from a handler whose three staged-update maps are empty,
after any sequence of evaluate calls every group key staged in state_updates or
counter_updates is also staged in dedupe_updates. -/
theorem c10_state_and_counter_keys_have_dedupe (env : Env)
    (h h2 : StatefulDetectorHandler) (packets : List DataPacket)
    (_hdm : h.dedupe_updates = []) (hcm : h.counter_updates = [])
    (hsm : h.state_updates = [])
    (hseq : evalSeq h env packets = some h2) :
    stagedInvariant h2 := by
  refine stagedInvariant_evalSeq env packets h h2 ⟨?_, ?_⟩ hseq
  · intro e he
    rw [hsm] at he
    simp at he
  · intro e he
    rw [hcm] at he
    simp at he

/-- Witness for claim C10: one evaluate call on the fresh sample handler
maintains the staged-map invariant. -/
theorem c10_state_and_counter_keys_have_dedupe_witness :
    stagedInvariant ((evalSeq sampleHandler sampleEnv [samplePacket]).getD sampleHandler) :=
  c10_state_and_counter_keys_have_dedupe sampleEnv sampleHandler
    ((evalSeq sampleHandler sampleEnv [samplePacket]).getD sampleHandler)
    [samplePacket] rfl rfl rfl (by rfl)
